import Mathlib

/-!
Shallow embedding of the iSCSI login test client
(`test-with-python-client.py`).

Bytes are modelled as `Nat` (each in `[0, 256)` on the wire); byte
strings as `List Nat`.  The pure codec functions `create_login_pdu`
and `parse_login_response` are translated directly from the source.
The scenario runner's socket operations are modelled by a transport
oracle whose `connect`/`send`/`recv` operations either succeed or
raise (`Except`), and the Python `try/except/finally` blocks become
explicit matches on the `Except` value.
-/

/-- `params.encode('utf-8')`: the UTF-8 bytes of a string, as `Nat`s.
Uses the core library's UTF-8 character encoder. -/
def utf8Bytes (s : String) : List Nat :=
  s.data.flatMap (fun c => (String.utf8EncodeChar c).map (fun b => b.toNat))

/-- The padding loop
`while len(param_bytes) % 4 != 0: param_bytes += b'\x00'`,
with explicit fuel.  Each iteration appends one byte, so the loop body
runs at most 3 times; fuel 3 is enough (proved in `padLoop_mod`). -/
def padLoop : Nat → List Nat → List Nat
  | 0, bs => bs
  | n + 1, bs => if bs.length % 4 = 0 then bs else padLoop n (bs ++ [0])

/-- Pad a byte string with null bytes to a 4-byte boundary
(lines 17-20 of the source). -/
def pad4 (bs : List Nat) : List Nat :=
  padLoop 3 bs

/-- `struct.pack('>H', v)`: big-endian 16-bit value as two bytes. -/
def packU16BE (v : Nat) : List Nat :=
  [(v >>> 8) &&& 0xFF, v &&& 0xFF]

/-- `struct.pack('>I', v)`: big-endian 32-bit value as four bytes. -/
def packU32BE (v : Nat) : List Nat :=
  [(v >>> 24) &&& 0xFF, (v >>> 16) &&& 0xFF, (v >>> 8) &&& 0xFF, v &&& 0xFF]

/-- `create_login_pdu(isid, tsih, cid, cmd_sn, exp_stat_sn, params)`:
build an iSCSI Login Request PDU.  The 48-byte BHS is laid out exactly
as the source writes it into the zero-initialised `bytearray(48)`:
offsets 0-7 (opcode, flags, reserved 2-3, AHS length, 3-byte data
length), 8-13 ISID, 14-15 TSIH, 16-19 ITT (= cmd_sn), 20-21 CID,
22-23 untouched zeros, 24-27 CmdSN, 28-31 ExpStatSN, 32-47 untouched
zeros; then the padded parameter bytes follow. -/
def create_login_pdu (isid : List Nat) (tsih cid cmd_sn exp_stat_sn : Nat)
    (params : String) : List Nat :=
  let param_bytes := pad4 (utf8Bytes params)
  let data_len := param_bytes.length
  let bhs : List Nat :=
    [0x03 ||| 0x40, 0x83, 0, 0, 0,
     (data_len >>> 16) &&& 0xFF, (data_len >>> 8) &&& 0xFF, data_len &&& 0xFF]
    ++ isid
    ++ packU16BE tsih
    ++ packU32BE cmd_sn
    ++ packU16BE cid
    ++ [0, 0]
    ++ packU32BE cmd_sn
    ++ packU32BE exp_stat_sn
    ++ List.replicate 16 0
  bhs ++ param_bytes

/-- The dictionary returned by `parse_login_response`. -/
structure LoginResult where
  opcode : Nat
  status_class : Nat
  status_detail : Nat
  status_code : Nat
  deriving Repr, DecidableEq

/-- `parse_login_response(data)`: parse an iSCSI Login Response PDU.
Returns `none` ("no result") for short buffers or a wrong opcode. -/
def parse_login_response (data : List Nat) : Option LoginResult :=
  if data.length < 48 then
    none
  else
    let opcode := data.getD 0 0 &&& 0x3F
    if opcode ≠ 0x23 then
      none
    else
      let status_class := data.getD 36 0
      let status_detail := data.getD 37 0
      some { opcode := opcode, status_class := status_class,
             status_detail := status_detail,
             status_code := (status_class <<< 8) ||| status_detail }

/-! ## Scenario runner

Each `test_*` function opens a socket, then inside `try:` connects,
sends the PDU, receives a response, parses it and compares the status
code; `except Exception` turns any raised exception into a `False`
verdict, and `finally: sock.close()` closes the socket on every exit
path.  The network is modelled as a transport oracle: each operation
either succeeds with a value or raises with an exception message. -/

/-- The network seen by one scenario: `connect`, `sendall` and `recv`
either succeed or raise. -/
structure Transport where
  connect : Except String Unit
  send : List Nat → Except String Unit
  recv : Nat → Except String (List Nat)

/-- What a finished scenario left behind: its returned verdict and
whether its socket was closed. -/
structure ScenarioResult where
  verdict : Bool
  closed : Bool
  deriving Repr, DecidableEq

/-- The body of a scenario's `try:` block: connect, send the PDU,
receive `recvLen` bytes, parse, and compare the status code with the
expected one (`if result and result['status_code'] == expected`).
Any raised exception propagates as `Except.error`. -/
def attempt (t : Transport) (pdu : List Nat) (recvLen expected : Nat) :
    Except String Bool := do
  t.connect
  t.send pdu
  let response ← t.recv recvLen
  let result := parse_login_response response
  pure (match result with
        | some r => r.status_code == expected
        | none => false)

/-- `try/except/finally` around `attempt`: an exception becomes a
`false` verdict (`except Exception: return False`), and the socket is
closed on every path (`finally: sock.close()`). -/
def runScenario (t : Transport) (pdu : List Nat) (recvLen expected : Nat) :
    ScenarioResult :=
  match attempt t pdu recvLen expected with
  | Except.ok v => { verdict := v, closed := true }
  | Except.error _ => { verdict := false, closed := true }

/-- `test_successful_login`: valid parameters, expects SUCCESS 0x0000,
reads up to 1024 bytes. -/
def test_successful_login (t : Transport) : ScenarioResult :=
  runScenario t
    (create_login_pdu [0x01, 0x02, 0x03, 0x04, 0x05, 0x08] 0 0 0 0
      ("InitiatorName=iqn.2025-12.test:python-client\x00" ++
       "TargetName=iqn.2025-12.local:storage.memory-disk\x00" ++
       "AuthMethod=None\x00"))
    1024 0x0000

/-- `test_target_not_found`: wrong target name, expects 0x0203,
reads 48 bytes. -/
def test_target_not_found (t : Transport) : ScenarioResult :=
  runScenario t
    (create_login_pdu [0x01, 0x02, 0x03, 0x04, 0x05, 0x06] 0 0 0 0
      ("InitiatorName=iqn.2025-12.test:python-client\x00" ++
       "TargetName=iqn.wrong.target.name\x00" ++
       "AuthMethod=None\x00"))
    48 0x0203

/-- `test_missing_parameter`: no `InitiatorName`, expects 0x0207,
reads 48 bytes. -/
def test_missing_parameter (t : Transport) : ScenarioResult :=
  runScenario t
    (create_login_pdu [0x01, 0x02, 0x03, 0x04, 0x05, 0x07] 0 0 0 0
      ("TargetName=iqn.2025-12.local:storage.memory-disk\x00" ++
       "AuthMethod=None\x00"))
    48 0x0207

/-- `main`'s `results` list: all three scenarios run in order,
unconditionally (each gets its own connection, modelled by its own
transport value). -/
def mainResults (t₁ t₂ t₃ : Transport) : List Bool :=
  [(test_successful_login t₁).verdict,
   (test_target_not_found t₂).verdict,
   (test_missing_parameter t₃).verdict]

/-- `sys.exit(0 if all(results) else 1)`. -/
def mainExit (t₁ t₂ t₃ : Transport) : Nat :=
  if (mainResults t₁ t₂ t₃).all id then 0 else 1

/-- The request wire layout as the spec states it (section 6): byte 0,
byte 1, byte 4, the 24-bit big-endian length in bytes 5-7, the ISID in
bytes 8-13, the big-endian TSIH, ITT, CID, CmdSN and ExpStatSN fields,
and the null-padded parameter text right after the 48-byte header.
Stated as a predicate on the encoder's output, to be proved of
`create_login_pdu`. -/
def LoginRequestLayout (isid : List Nat) (tsih cid cmd_sn exp_stat_sn : Nat)
    (params : String) (out : List Nat) : Prop :=
  out.length = 48 + (pad4 (utf8Bytes params)).length ∧
  out.getD 0 0 = (0x03 ||| 0x40) ∧
  out.getD 1 0 = 0x83 ∧
  out.getD 4 0 = 0 ∧
  out.getD 5 0 * 65536 + out.getD 6 0 * 256 + out.getD 7 0
    = (pad4 (utf8Bytes params)).length % 16777216 ∧
  (∀ i, i < 6 → out.getD (8 + i) 0 = isid.getD i 0) ∧
  out.getD 14 0 * 256 + out.getD 15 0 = tsih ∧
  out.getD 16 0 * 16777216 + out.getD 17 0 * 65536 +
    out.getD 18 0 * 256 + out.getD 19 0 = cmd_sn ∧
  out.getD 20 0 * 256 + out.getD 21 0 = cid ∧
  out.getD 24 0 * 16777216 + out.getD 25 0 * 65536 +
    out.getD 26 0 * 256 + out.getD 27 0 = cmd_sn ∧
  out.getD 28 0 * 16777216 + out.getD 29 0 * 65536 +
    out.getD 30 0 * 256 + out.getD 31 0 = exp_stat_sn ∧
  out.drop 48 = pad4 (utf8Bytes params)

example : pad4 [1] = [1, 0, 0, 0] := by decide
example : pad4 [] = [] := by decide
example : utf8Bytes "A=" = [65, 61] := by decide
example : parse_login_response (0x63 :: List.replicate 47 9) =
    some ⟨0x23, 9, 9, (9 <<< 8) ||| 9⟩ := by decide

/-! ## Helper lemmas -/

theorem land_255 (x : Nat) : x &&& 255 = x % 256 := by
  simpa using Nat.and_pow_two_sub_one_eq_mod x 8

theorem land_63 (x : Nat) : x &&& 63 = x % 64 := by
  simpa using Nat.and_pow_two_sub_one_eq_mod x 6

/-- Fuel `n` suffices for the padding loop whenever the number of null
bytes still needed is at most `n`. -/
theorem padLoop_mod (n : Nat) (bs : List Nat) (h : (4 - bs.length % 4) % 4 ≤ n) :
    (padLoop n bs).length % 4 = 0 := by
  induction n generalizing bs with
  | zero =>
    have h0 : bs.length % 4 = 0 := by omega
    simpa [padLoop] using h0
  | succ n ih =>
    simp only [padLoop]
    split
    · assumption
    · refine ih (bs ++ [0]) ?_
      rw [List.length_append]
      simp only [List.length_cons, List.length_nil]
      omega

theorem pad4_length_mod (bs : List Nat) : (pad4 bs).length % 4 = 0 :=
  padLoop_mod 3 bs (by omega)

theorem padLoop_eq_append (n : Nat) (bs : List Nat) :
    ∃ k, padLoop n bs = bs ++ List.replicate k 0 := by
  induction n generalizing bs with
  | zero => exact ⟨0, by simp [padLoop]⟩
  | succ n ih =>
    simp only [padLoop]
    split
    · exact ⟨0, by simp⟩
    · obtain ⟨k, hk⟩ := ih (bs ++ [0])
      refine ⟨k + 1, ?_⟩
      rw [hk, List.append_assoc]
      simp [List.replicate_succ]

theorem pad4_eq_append (bs : List Nat) :
    ∃ k, pad4 bs = bs ++ List.replicate k 0 :=
  padLoop_eq_append 3 bs

/-- `parse_login_response` returns `none` exactly on short buffers or a
wrong masked opcode (shared characterisation). -/
theorem parse_login_response_eq_none (data : List Nat) :
    parse_login_response data = none ↔
      data.length < 48 ∨ data.getD 0 0 &&& 0x3F ≠ 0x23 := by
  unfold parse_login_response
  split
  · next h => simp [h]
  · next h =>
    dsimp only
    split
    · next h2 =>
      simp only [List.getD_eq_getElem?_getD] at h2
      simp [h, h2]
    · next h2 =>
      simp only [List.getD_eq_getElem?_getD] at h2
      simp [h, h2]

/-- Big-endian recombination of the three length bytes. -/
theorem be24_mod (v : Nat) :
    ((v >>> 16) &&& 0xFF) * 65536 + ((v >>> 8) &&& 0xFF) * 256 + (v &&& 0xFF)
      = v % 16777216 := by
  rw [Nat.shiftRight_eq_div_pow, Nat.shiftRight_eq_div_pow,
      land_255, land_255, land_255]
  norm_num
  omega

/-- Big-endian recombination of a 16-bit field. -/
theorem be16_eq (v : Nat) (h : v < 65536) :
    ((v >>> 8) &&& 0xFF) * 256 + (v &&& 0xFF) = v := by
  rw [Nat.shiftRight_eq_div_pow, land_255, land_255]
  norm_num
  omega

/-- Big-endian recombination of a 32-bit field. -/
theorem be32_eq (v : Nat) (h : v < 4294967296) :
    ((v >>> 24) &&& 0xFF) * 16777216 + ((v >>> 16) &&& 0xFF) * 65536 +
      ((v >>> 8) &&& 0xFF) * 256 + (v &&& 0xFF) = v := by
  rw [Nat.shiftRight_eq_div_pow, Nat.shiftRight_eq_div_pow,
      Nat.shiftRight_eq_div_pow, land_255, land_255, land_255, land_255]
  norm_num
  omega

/-! ## Claims -/

/-- C3: the decoder returns "no result" exactly when the buffer is
shorter than 48 bytes or the low 6 bits of byte 0 are not 0x23; it is a
total function, so malformed input never raises. -/
theorem decode_none_iff_short_or_wrong_opcode (data : List Nat) :
    parse_login_response data = none ↔
      data.length < 48 ∨ data.getD 0 0 &&& 0x3F ≠ 0x23 :=
  parse_login_response_eq_none data

/-- C5: header bytes 5, 6, 7 (most-significant first) encode the padded
payload's byte length modulo 2^24, for every input. -/
theorem length_field_eq_padded_length_mod (isid : List Nat)
    (tsih cid cmd_sn exp_stat_sn : Nat) (params : String) :
    (create_login_pdu isid tsih cid cmd_sn exp_stat_sn params).getD 5 0 * 65536 +
    (create_login_pdu isid tsih cid cmd_sn exp_stat_sn params).getD 6 0 * 256 +
    (create_login_pdu isid tsih cid cmd_sn exp_stat_sn params).getD 7 0
      = (pad4 (utf8Bytes params)).length % 16777216 := by
  have e5 : (create_login_pdu isid tsih cid cmd_sn exp_stat_sn params).getD 5 0
      = ((pad4 (utf8Bytes params)).length >>> 16) &&& 0xFF := rfl
  have e6 : (create_login_pdu isid tsih cid cmd_sn exp_stat_sn params).getD 6 0
      = ((pad4 (utf8Bytes params)).length >>> 8) &&& 0xFF := rfl
  have e7 : (create_login_pdu isid tsih cid cmd_sn exp_stat_sn params).getD 7 0
      = (pad4 (utf8Bytes params)).length &&& 0xFF := rfl
  rw [e5, e6, e7]
  exact be24_mod _

/-- C10: the encoder's output never parses as a login response: its
first byte is 0x43, whose low 6 bits are 0x03, not 0x23. -/
theorem encode_never_decodes (isid : List Nat)
    (tsih cid cmd_sn exp_stat_sn : Nat) (params : String) :
    parse_login_response (create_login_pdu isid tsih cid cmd_sn exp_stat_sn params)
      = none := by
  rw [parse_login_response_eq_none]
  refine Or.inr ?_
  have h0 : (create_login_pdu isid tsih cid cmd_sn exp_stat_sn params).getD 0 0
      = 0x43 := rfl
  rw [h0]
  decide

/-- C2: on any 48-byte buffer whose byte 0 has low 6 bits 0x23, the
decoder returns a result whose status class is byte 36, status detail
is byte 37, and combined status code is `(b36 <<< 8) ||| b37`. -/
theorem decode_status_fields (data : List Nat) (hlen : data.length = 48)
    (hop : data.getD 0 0 &&& 0x3F = 0x23) :
    ∃ r, parse_login_response data = some r ∧
      r.status_class = data.getD 36 0 ∧
      r.status_detail = data.getD 37 0 ∧
      r.status_code = (data.getD 36 0 <<< 8) ||| data.getD 37 0 := by
  refine ⟨⟨0x23, data.getD 36 0, data.getD 37 0,
          (data.getD 36 0 <<< 8) ||| data.getD 37 0⟩, ?_, rfl, rfl, rfl⟩
  unfold parse_login_response
  rw [if_neg (by omega), hop, if_neg (by simp)]

/-- C2 witness: a concrete 48-byte buffer with opcode byte 0x23 and
status bytes 9, 9. -/
theorem decode_status_fields_witness :
    (0x23 :: List.replicate 47 9 : List Nat).length = 48 ∧
    ((0x23 :: List.replicate 47 9 : List Nat).getD 0 0 &&& 0x3F = 0x23) ∧
    ∃ r, parse_login_response (0x23 :: List.replicate 47 9) = some r ∧
      r.status_class = (0x23 :: List.replicate 47 9 : List Nat).getD 36 0 ∧
      r.status_detail = (0x23 :: List.replicate 47 9 : List Nat).getD 37 0 ∧
      r.status_code = ((0x23 :: List.replicate 47 9 : List Nat).getD 36 0 <<< 8) |||
        (0x23 :: List.replicate 47 9 : List Nat).getD 37 0 :=
  ⟨by decide, by decide,
   decode_status_fields (0x23 :: List.replicate 47 9) (by decide) (by decide)⟩

/-- C4: for every parameter string, the part of the encoder's output
after the 48-byte header has length a multiple of 4 and is the UTF-8
parameter text right-padded with null bytes. -/
theorem payload_padded_to_word_boundary (isid : List Nat) (h6 : isid.length = 6)
    (tsih cid cmd_sn exp_stat_sn : Nat) (params : String) :
    ((create_login_pdu isid tsih cid cmd_sn exp_stat_sn params).drop 48).length % 4 = 0 ∧
    ∃ n, (create_login_pdu isid tsih cid cmd_sn exp_stat_sn params).drop 48
      = utf8Bytes params ++ List.replicate n 0 := by
  obtain ⟨a, b, c, d, e, f, h⟩ :
      ∃ a b c d e f, isid = [a, b, c, d, e, f] := by
    match isid, h6 with
    | [a, b, c, d, e, f], _ => exact ⟨a, b, c, d, e, f, rfl⟩
  subst h
  have hdrop : (create_login_pdu [a, b, c, d, e, f] tsih cid cmd_sn exp_stat_sn params).drop 48
      = pad4 (utf8Bytes params) := rfl
  rw [hdrop]
  exact ⟨pad4_length_mod _, pad4_eq_append _⟩

/-- C4 witness: concrete inputs with an empty parameter string. -/
theorem payload_padded_to_word_boundary_witness :
    ([1, 2, 3, 4, 5, 6] : List Nat).length = 6 ∧
    (((create_login_pdu [1, 2, 3, 4, 5, 6] 0 0 0 0 "").drop 48).length % 4 = 0 ∧
     ∃ n, (create_login_pdu [1, 2, 3, 4, 5, 6] 0 0 0 0 "").drop 48
       = utf8Bytes "" ++ List.replicate n 0) :=
  ⟨by decide, payload_padded_to_word_boundary [1, 2, 3, 4, 5, 6] (by decide) 0 0 0 0 ""⟩

/-- C6: an exception raised during connect, send or receive (the
scenario body returning `Except.error`) is caught and becomes a
`false` verdict for that scenario only; the scenario function still
returns normally (socket closed), and all three scenarios of `main`
are always run. -/
theorem exception_becomes_failing_verdict (t : Transport) (pdu : List Nat)
    (recvLen expected : Nat) (e : String)
    (h : attempt t pdu recvLen expected = Except.error e) :
    runScenario t pdu recvLen expected = { verdict := false, closed := true } ∧
    ∀ t₁ t₂ t₃ : Transport, (mainResults t₁ t₂ t₃).length = 3 := by
  constructor
  · unfold runScenario
    rw [h]
  · intro t₁ t₂ t₃
    rfl

/-- C6 witness: a transport whose connect raises. -/
theorem exception_becomes_failing_verdict_witness :
    attempt ⟨Except.error "connection refused", fun _ => Except.ok (),
             fun _ => Except.ok []⟩ [] 48 0x0203
      = Except.error "connection refused" ∧
    (runScenario ⟨Except.error "connection refused", fun _ => Except.ok (),
                  fun _ => Except.ok []⟩ [] 48 0x0203
        = { verdict := false, closed := true } ∧
     ∀ t₁ t₂ t₃ : Transport, (mainResults t₁ t₂ t₃).length = 3) :=
  ⟨rfl,
   exception_becomes_failing_verdict _ [] 48 0x0203 "connection refused" rfl⟩

/-- C7: `main` runs all three scenarios unconditionally and exits with
status 0 iff every scenario's verdict is a pass; any failing verdict
makes the exit status 1. -/
theorem exit_zero_iff_all_pass (t₁ t₂ t₃ : Transport) :
    (mainResults t₁ t₂ t₃).length = 3 ∧
    (mainExit t₁ t₂ t₃ = 0 ↔
      (test_successful_login t₁).verdict = true ∧
      (test_target_not_found t₂).verdict = true ∧
      (test_missing_parameter t₃).verdict = true) := by
  refine ⟨rfl, ?_⟩
  unfold mainExit mainResults
  cases h₁ : (test_successful_login t₁).verdict <;>
    cases h₂ : (test_target_not_found t₂).verdict <;>
      cases h₃ : (test_missing_parameter t₃).verdict <;>
        simp [h₁, h₂, h₃]

/-- C8: every scenario closes its connection on every exit path: the
`closed` field of the scenario's result is `true` for any transport
behaviour. -/
theorem connection_always_closed (t₁ t₂ t₃ : Transport) :
    (test_successful_login t₁).closed = true ∧
    (test_target_not_found t₂).closed = true ∧
    (test_missing_parameter t₃).closed = true := by
  refine ⟨?_, ?_, ?_⟩ <;>
    · simp only [test_successful_login, test_target_not_found,
        test_missing_parameter, runScenario]
      split <;> rfl

/-- C9: when transport operations succeed but the decoder returns
"no result", the scenario's verdict is failure (and the connection is
still closed). -/
theorem no_result_is_failure (t : Transport) (pdu resp : List Nat)
    (recvLen expected : Nat)
    (hc : t.connect = Except.ok ()) (hs : t.send pdu = Except.ok ())
    (hr : t.recv recvLen = Except.ok resp)
    (hp : parse_login_response resp = none) :
    runScenario t pdu recvLen expected = { verdict := false, closed := true } := by
  unfold runScenario attempt
  rw [hc, hs, hr]
  simp [Except.bind, hp]
  rfl

/-- C9 witness: a transport that answers with an empty (too short)
response. -/
theorem no_result_is_failure_witness :
    (Transport.mk (Except.ok ()) (fun _ => Except.ok ())
        (fun _ => Except.ok [])).connect = Except.ok () ∧
    parse_login_response [] = none ∧
    runScenario ⟨Except.ok (), fun _ => Except.ok (), fun _ => Except.ok []⟩
        [] 48 0x0203 = { verdict := false, closed := true } :=
  ⟨rfl, rfl,
   no_result_is_failure _ [] [] 48 0x0203 rfl rfl rfl rfl⟩

set_option maxHeartbeats 1600000 in
/-- C1: for every 6-byte ISID, 16-bit TSIH and CID, 32-bit CmdSN and
ExpStatSN, and parameter string, the encoder's output satisfies the
spec's 48-byte header layout, followed by the null-padded parameter
text. -/
theorem encoder_meets_layout (isid : List Nat) (tsih cid cmd_sn exp_stat_sn : Nat)
    (params : String) (h6 : isid.length = 6) (ht : tsih < 65536)
    (hcid : cid < 65536) (hcs : cmd_sn < 4294967296)
    (hes : exp_stat_sn < 4294967296) :
    LoginRequestLayout isid tsih cid cmd_sn exp_stat_sn params
      (create_login_pdu isid tsih cid cmd_sn exp_stat_sn params) := by
  obtain ⟨a, b, c, d, e, f, h⟩ :
      ∃ a b c d e f, isid = [a, b, c, d, e, f] := by
    match isid, h6 with
    | [a, b, c, d, e, f], _ => exact ⟨a, b, c, d, e, f, rfl⟩
  subst h
  refine ⟨?_, rfl, rfl, rfl, ?_, ?_, ?_, ?_, ?_, ?_, ?_, rfl⟩
  · have hl : (create_login_pdu [a, b, c, d, e, f] tsih cid cmd_sn exp_stat_sn
        params).length = (pad4 (utf8Bytes params)).length + 48 := rfl
    omega
  · show (((pad4 (utf8Bytes params)).length >>> 16) &&& 0xFF) * 65536 +
        (((pad4 (utf8Bytes params)).length >>> 8) &&& 0xFF) * 256 +
        ((pad4 (utf8Bytes params)).length &&& 0xFF)
        = (pad4 (utf8Bytes params)).length % 16777216
    exact be24_mod _
  · intro i hi
    interval_cases i <;> rfl
  · show ((tsih >>> 8) &&& 0xFF) * 256 + (tsih &&& 0xFF) = tsih
    exact be16_eq tsih ht
  · show ((cmd_sn >>> 24) &&& 0xFF) * 16777216 + ((cmd_sn >>> 16) &&& 0xFF) * 65536 +
        ((cmd_sn >>> 8) &&& 0xFF) * 256 + (cmd_sn &&& 0xFF) = cmd_sn
    exact be32_eq cmd_sn hcs
  · show ((cid >>> 8) &&& 0xFF) * 256 + (cid &&& 0xFF) = cid
    exact be16_eq cid hcid
  · show ((cmd_sn >>> 24) &&& 0xFF) * 16777216 + ((cmd_sn >>> 16) &&& 0xFF) * 65536 +
        ((cmd_sn >>> 8) &&& 0xFF) * 256 + (cmd_sn &&& 0xFF) = cmd_sn
    exact be32_eq cmd_sn hcs
  · show ((exp_stat_sn >>> 24) &&& 0xFF) * 16777216 +
        ((exp_stat_sn >>> 16) &&& 0xFF) * 65536 +
        ((exp_stat_sn >>> 8) &&& 0xFF) * 256 + (exp_stat_sn &&& 0xFF) = exp_stat_sn
    exact be32_eq exp_stat_sn hes

/-- C1 witness: concrete inputs exercising the layout theorem. -/
theorem encoder_meets_layout_witness :
    ([1, 2, 3, 4, 5, 6] : List Nat).length = 6 ∧ (7 : Nat) < 65536 ∧
    (9 : Nat) < 65536 ∧ (11 : Nat) < 4294967296 ∧ (13 : Nat) < 4294967296 ∧
    LoginRequestLayout [1, 2, 3, 4, 5, 6] 7 9 11 13 "k=v"
      (create_login_pdu [1, 2, 3, 4, 5, 6] 7 9 11 13 "k=v") :=
  ⟨by decide, by decide, by decide, by decide, by decide,
   encoder_meets_layout [1, 2, 3, 4, 5, 6] 7 9 11 13 "k=v"
     (by decide) (by decide) (by decide) (by decide) (by decide)⟩
